import Mathlib

/-!
Shallow embedding of the backend of the Team-126 homeless-assistant service
(`src/backend/tools/search_tool.py`, `src/backend/chatbot.py`,
`src/backend/main.py`) and proofs about the behaviour its specification
describes.  External network effects (reverse geocoding, the DuckDuckGo
instant-answer API, the Vertex AI chat session, the SQL store) are modelled
as explicit inputs: each embedded function takes the response of the outside
world as an argument and is otherwise a direct transcription of the Python
source.
-/

namespace HA

/-- Python truthiness of an optional string field taken from a JSON object:
`None` and the empty string are falsy. -/
def truthy : Option String → Bool
  | some s => !(s == "")
  | none => false

/-- Python `a or b` on two optional string fields: yields `a` when `a` is
truthy, otherwise `b`. -/
def pyOr (a b : Option String) : Option String := if truthy a then a else b

/-- The `address` object of a Nominatim reverse-geocoding JSON response;
each field is absent (`none`) or a string (possibly empty). -/
structure Address where
  city : Option String
  town : Option String
  village : Option String
  state : Option String
  country : Option String
deriving DecidableEq, Repr

/-- Outcome of the reverse-geocoding HTTP call made by `get_location_name`:
either the request (or JSON parse) raised, or it yielded a status code and
an address object (`data.get('address', \x7b\x7d)`; a missing `address` key
is the all-`none` record). -/
inductive GeoResp where
  | netFail (msg : String)
  | httpResp (status : Nat) (address : Address)
deriving DecidableEq, Repr

/-- `search_tool.get_location_name` (src/backend/tools/search_tool.py,
lines 31-76): turns the geocoder's response into `Some name` or `None`.
All exceptions are caught inside the function and become `none`. -/
def get_location_name (resp : GeoResp) : Option String :=
  match resp with
  | .netFail _ => none
  | .httpResp status address =>
    if status == 200 then
      let city := pyOr (pyOr address.city address.town) address.village
      if truthy city && truthy address.state then
        some (city.getD "" ++ ", " ++ address.state.getD "")
      else if truthy city && truthy address.country then
        some (city.getD "" ++ ", " ++ address.country.getD "")
      else if truthy city then city
      else none
    else none

/-- One entry of the `RelatedTopics` list of a DuckDuckGo instant-answer
response: a JSON object (with its optional `Text` and `FirstURL` fields) or
something that is not a dict (e.g. a topic group). -/
inductive Topic where
  | dict (text : Option String) (firstURL : Option String)
  | nonDict
deriving DecidableEq, Repr

/-- The JSON document returned by the DuckDuckGo instant-answer API, reduced
to the fields `perform_web_search` reads. -/
structure DDGData where
  abstract : Option String
  heading : Option String
  abstractURL : Option String
  relatedTopics : List Topic
deriving DecidableEq, Repr

/-- Outcome of the search-backend HTTP calls inside `perform_web_search`'s
`try` block: either some request or parse raised, or the instant-answer API
produced a document. -/
inductive SearchEnv where
  | netFail (msg : String)
  | ok (data : DDGData)
deriving DecidableEq, Repr

/-- A search result dict `\x7btitle, snippet, url\x7d`. -/
structure SearchResult where
  title : String
  snippet : String
  url : String
deriving DecidableEq, Repr

/-- Does the character list start with the pattern? -/
def startsWithL : List Char → List Char → Bool
  | _, [] => true
  | [], _ :: _ => false
  | c :: cs, p :: ps => c == p && startsWithL cs ps

/-- Substring search over character lists. -/
def containsSubAux (p : List Char) : List Char → Bool
  | [] => startsWithL [] p
  | c :: cs => startsWithL (c :: cs) p || containsSubAux p cs

/-- Python substring test `pat in s`. -/
def containsSub (s pat : String) : Bool := containsSubAux pat.data s.data

/-- Title of a related topic: `text.split(' - ')[0]` when `' - '` occurs in
the text, else `'Related'` (search_tool.py line 147). -/
def topicTitle (text : String) : String :=
  if containsSub text " - " then (text.splitOn " - ").headD "" else "Related"

/-- The related-topic loop of `perform_web_search` (lines 144-150): keep the
dict entries that carry a `Text` key, in order. -/
def topicResults (topics : List Topic) : List SearchResult :=
  topics.filterMap fun t =>
    match t with
    | .dict (some text) firstURL =>
      some ⟨topicTitle text, text, firstURL.getD ""⟩
    | _ => none

/-- UTF-8 code units of a character. -/
def utf8Bytes (c : Char) : List Nat :=
  let n := c.toNat
  if n < 128 then [n]
  else if n < 2048 then [192 + n / 64, 128 + n % 64]
  else if n < 65536 then [224 + n / 4096, 128 + (n / 64) % 64, 128 + n % 64]
  else [240 + n / 262144, 128 + (n / 4096) % 64, 128 + (n / 64) % 64, 128 + n % 64]

/-- Upper-case hexadecimal digit. -/
def hexDigit (n : Nat) : Char :=
  if n < 10 then Char.ofNat (48 + n) else Char.ofNat (55 + n)

/-- Percent-encoding of one byte. -/
def quoteByte (b : Nat) : String :=
  "%" ++ String.singleton (hexDigit (b / 16)) ++ String.singleton (hexDigit (b % 16))

/-- `requests.utils.quote` (external library boundary): percent-encode every
character outside the unreserved set, keeping `/` literal (its default
`safe` value). -/
def isSafeChar (c : Char) : Bool :=
  c.isAlphanum || c == '_' || c == '.' || c == '-' || c == '~' || c == '/'

/-- URL-quote a string as `requests.utils.quote` does with default arguments. -/
def urlQuote (s : String) : String :=
  s.data.foldl
    (fun acc c =>
      if isSafeChar c then acc ++ String.singleton c
      else acc ++ String.join ((utf8Bytes c).map quoteByte)) ""

/-- The query-enhancement block of `perform_web_search` (lines 93-103): with
both coordinates present, append the geocoded place name when it is truthy,
otherwise append the raw coordinates; with a coordinate missing, leave the
query unchanged.  Coordinates are modelled by their decimal renderings. -/
def enhanced_query (geo : GeoResp) (query : String)
    (latitude longitude : Option String) : String :=
  match latitude, longitude with
  | some lat, some lon =>
    match get_location_name geo with
    | some name => if name == "" then query ++ " near " ++ lat ++ "," ++ lon
                   else query ++ " near " ++ name
    | none => query ++ " near " ++ lat ++ "," ++ lon
  | _, _ => query

/-- The fixed fallback result of `perform_web_search`'s `except` branch
(lines 160-168). -/
def fallbackResult : SearchResult :=
  ⟨"Search Unavailable",
   "Unable to search at this time. Try: Call 211 for local resources, or visit https://www.211.org",
   "https://www.211.org"⟩

/-- `search_tool.perform_web_search` (lines 79-168).  `geo` is the
geocoder's behaviour, `env` the search backend's; any exception inside the
`try` block (either HTTP call or the JSON parse) is the `netFail` case and
is absorbed into the fixed fallback result. -/
def perform_web_search (geo : GeoResp) (env : SearchEnv) (query : String)
    (max_results : Nat := 5) (latitude longitude : Option String := none) :
    List SearchResult :=
  match env with
  | .netFail _ => [fallbackResult]
  | .ok data =>
    let eq := enhanced_query geo query latitude longitude
    let abstractPart : List SearchResult :=
      if truthy data.abstract then
        [⟨data.heading.getD "Result", data.abstract.getD "", data.abstractURL.getD ""⟩]
      else []
    let results := abstractPart ++ topicResults (data.relatedTopics.take max_results)
    if results.isEmpty then
      [⟨"Search Info",
        "Search query: " ++ eq ++ ". For better results, try searching online directly or contact local 211 services.",
        "https://duckduckgo.com/?q=" ++ urlQuote eq⟩]
    else results.take max_results

/-! ## `chatbot.py`: the turn orchestrator -/

/-- A history entry handed to `get_chatbot_response`: a dict with `role` and
`content` keys. -/
structure Msg where
  role : String
  content : String
deriving DecidableEq, Repr

/-- The generation config passed on the final `send_message`
(chatbot.py lines 160-163).  The float temperature is modelled as a
rational. -/
structure GenConfig where
  temperature : ℚ
  max_output_tokens : Nat
deriving DecidableEq, Repr

/-- One `chat.send_message` call: the content sent and the generation
config, `none` for the replay calls which pass no config. -/
structure ModelCall where
  content : String
  config : Option GenConfig
deriving DecidableEq, Repr

/-- The generation config used for the last message:
temperature 0.7, max_output_tokens 500. -/
def genCfg : GenConfig := ⟨7/10, 500⟩

/-- A `function_call` found in a response part: its name and its `args`
mapping (string-valued, as the only declared parameters are strings). -/
structure FunctionCall where
  name : String
  args : List (String × String)
deriving DecidableEq, Repr

/-- One part of a model response candidate: a text part, or a part carrying
a truthy `function_call` attribute. -/
inductive Part where
  | text (s : String)
  | functionCall (fc : FunctionCall)
deriving DecidableEq, Repr

/-- A model response reduced to what the code reads: the list of
`candidates`, each reduced to its `content.parts`. -/
structure ModelResponse where
  candidates : List (List Part)
deriving DecidableEq, Repr

/-- Outcome of one `chat.send_message` call: the call raised, or it returned
a response. -/
inductive SendOutcome where
  | raises (msg : String)
  | responds (resp : ModelResponse)
deriving DecidableEq, Repr

/-- The Vertex AI chat session as an oracle: the outcome of the k-th
`send_message` call issued by the orchestrator. -/
structure ChatEnv where
  send : Nat → SendOutcome

/-- `dict.get k default` on an args mapping. -/
def lookupD (l : List (String × String)) (k d : String) : String :=
  match l.find? (fun kv => kv.1 == k) with
  | some kv => kv.2
  | none => d

/-- The parts of `response.candidates[0]`; `[]` when there is no candidate,
which makes the guard on chatbot.py line 174 equivalent to this list being
non-empty. -/
def partsOf (r : ModelResponse) : List Part :=
  match r.candidates with
  | [] => []
  | p :: _ => p

/-- The part loop of chatbot.py lines 175-187: the first part whose truthy
`function_call` is named `request_user_location` (text parts and function
calls with other names are skipped). -/
def findLocFC (parts : List Part) : Option FunctionCall :=
  parts.findSome? fun p =>
    match p with
    | .functionCall fc =>
      if fc.name == "request_user_location" then some fc else none
    | .text _ => none

/-- `response.text` of the Vertex AI SDK (external library boundary): the
concatenated text of the first candidate's parts, raising when the
candidate or a text part is missing. -/
def responseText (r : ModelResponse) : Except String String :=
  match r.candidates with
  | [] => .error "Response has no candidates."
  | parts :: _ =>
    if (parts.all fun p => match p with | .text _ => true | .functionCall _ => false)
        && !parts.isEmpty then
      .ok (String.join (parts.map fun p =>
        match p with | .text s => s | .functionCall _ => ""))
    else .error "Cannot get the response text."

/-- JSON escaping of one character as `json.dumps` (ensure_ascii) renders it;
characters beyond the BMP do not occur in the strings the code serializes. -/
def jsonEscapeChar (c : Char) : String :=
  if c == '\\' then "\\\\"
  else if c == '"' then "\\\""
  else if c == '\n' then "\\n"
  else if c == '\t' then "\\t"
  else if c == '\r' then "\\r"
  else if c.toNat < 32 || c.toNat > 126 then
    "\\u" ++ String.singleton (hexDigit (c.toNat / 4096 % 16))
          ++ String.singleton (hexDigit (c.toNat / 256 % 16))
          ++ String.singleton (hexDigit (c.toNat / 16 % 16))
          ++ String.singleton (hexDigit (c.toNat % 16))
  else String.singleton c

/-- A JSON string literal as `json.dumps` renders it. -/
def jsonStr (s : String) : String :=
  "\"" ++ String.join (s.data.map jsonEscapeChar) ++ "\""

/-- `json.dumps` of a flat object with string values, keys in insertion
order, default separators. -/
def dumpsObj (kvs : List (String × String)) : String :=
  "\x7b" ++ String.intercalate ", " (kvs.map fun kv => jsonStr kv.1 ++ ": " ++ jsonStr kv.2) ++ "\x7d"

/-- The special location-request reply of chatbot.py lines 183-187. -/
def locationRequestReply (reason : String) : String :=
  dumpsObj
    [("type", "request_location"),
     ("reason", reason),
     ("message", "I'd like to help you find nearby resources. May I access your location " ++ reason ++ "?")]

/-- The greeting returned for an empty history (chatbot.py line 191). -/
def emptyHistoryReply : String := "Hello! I'm here to help. How can I assist you today?"

/-- The prefix of the reply built in the `except` branch
(chatbot.py line 197). -/
def apologyPrefix : String :=
  "I apologize, but I'm having trouble connecting right now. Error: "

/-- The names of the function declarations registered on the model:
chatbot.py line 142 passes `tools=[location_tool]`, and `location_tool`
(lines 76-78) holds only `get_location_func`, i.e. `request_user_location`.
`search_tool.search_web_func` is never imported by chatbot.py. -/
def chatbotTools : List String := ["request_user_location"]

/-- Required parameters of `get_location_func` (chatbot.py line 72). -/
def get_location_func_required : List String := ["reason"]

/-- Required parameters of `search_web_func` (search_tool.py line 26). -/
def search_web_func_required : List String := ["query"]

/-- Result of the replay loop of chatbot.py lines 149-153: the next send
index and the calls made, or the message of the exception that interrupted
it together with the calls attempted up to and including the raising one. -/
inductive ReplayOut where
  | ok (nextIdx : Nat) (calls : List ModelCall)
  | exc (msg : String) (calls : List ModelCall)
deriving Repr

/-- The replay loop `for msg in messages[:-1]` (chatbot.py lines 149-153):
each prior message with role `user` is re-sent with no generation config;
other roles are skipped. -/
def runReplay (env : ChatEnv) : List Msg → Nat → ReplayOut
  | [], k => .ok k []
  | m :: ms, k =>
    if m.role == "user" then
      match env.send k with
      | .raises e => .exc e [⟨m.content, none⟩]
      | .responds _ =>
        match runReplay env ms (k + 1) with
        | .ok k' t => .ok k' (⟨m.content, none⟩ :: t)
        | .exc e t => .exc e (⟨m.content, none⟩ :: t)
    else runReplay env ms k

/-- Result of the `try` block of `get_chatbot_response`: a returned reply or
a raised exception, each with the model calls made. -/
inductive TryOut where
  | ok (reply : String) (calls : List ModelCall)
  | exc (msg : String) (calls : List ModelCall)
deriving DecidableEq, Repr

/-- The `try` block of `get_chatbot_response` (chatbot.py lines 137-191):
replay `messages[:-1]`, then, when the history is non-empty, send the last
message with the fixed generation config and inspect the response for a
`request_user_location` function call; otherwise return the greeting. -/
def tryBody (env : ChatEnv) (messages : List Msg) : TryOut :=
  match runReplay env messages.dropLast 0 with
  | .exc e t => .exc e t
  | .ok k t =>
    match messages.getLast? with
    | none => .ok emptyHistoryReply t
    | some last =>
      let calls := t ++ [⟨last.content, some genCfg⟩]
      match env.send k with
      | .raises e => .exc e calls
      | .responds resp =>
        match findLocFC (partsOf resp) with
        | some fc =>
          let reason := lookupD fc.args "reason" "to assist you better"
          .ok (locationRequestReply reason) calls
        | none =>
          match responseText resp with
          | .ok s => .ok s calls
          | .error e => .exc e calls

/-- What one orchestrator turn produces: the reply string, the trace of
model calls, and the trace of Search Provider calls.  No code path of
`get_chatbot_response` invokes `perform_web_search` (chatbot.py never
imports `search_tool`), so the last trace is empty on every path. -/
structure TurnResult where
  reply : String
  modelCalls : List ModelCall
  searchCalls : List String
deriving DecidableEq, Repr

/-- `chatbot.get_chatbot_response` (chatbot.py lines 127-197): the `try`
block's outcome, with any exception converted by the `except` branch into
the apologetic reply carrying the exception's message. -/
def get_chatbot_response (env : ChatEnv) (messages : List Msg) : TurnResult :=
  match tryBody env messages with
  | .ok r calls => ⟨r, calls, []⟩
  | .exc e calls => ⟨apologyPrefix ++ e, calls, []⟩

/-! ## `main.py`: conversation store, ending, and the websocket loop -/

/-- A row of the `messages` table as the endpoints create it. -/
structure MessageRec where
  conversation_id : Nat
  role : String
  content : String
  is_voice : Bool
deriving DecidableEq, Repr

/-- A row of the `conversations` table, timestamps as naturals. -/
structure ConversationRec where
  id : Nat
  user_id : Nat
  ended_at : Option Nat
  report : Option String
deriving DecidableEq, Repr

/-- The database state the two endpoints touch. -/
structure DB where
  conversations : List ConversationRec
  messages : List MessageRec
deriving DecidableEq, Repr

/-- Update the first conversation row with the given id (the ORM mutates the
single object returned by `.first()`). -/
def updateFirstConv (l : List ConversationRec) (cid : Nat)
    (f : ConversationRec → ConversationRec) : List ConversationRec :=
  match l with
  | [] => []
  | c :: cs => if c.id == cid then f c :: cs else c :: updateFirstConv cs cid f

/-- `main.end_conversation` (main.py lines 304-328): 404 when the
conversation does not exist; otherwise generate a report from all of the
conversation's messages, set `ended_at` to the current time and store the
report — with no check that `ended_at` was unset.  `genReport` stands for
`generate_conversation_report` (a non-interactive model call) and `now` for
`datetime.utcnow()`. -/
def end_conversation (db : DB) (cid : Nat) (now : Nat)
    (genReport : List (String × String) → String) :
    Except String (DB × String) :=
  match db.conversations.find? (fun c => c.id == cid) with
  | none => .error "Conversation not found"
  | some _ =>
    let message_list :=
      (db.messages.filter (fun m => m.conversation_id == cid)).map
        (fun m => (m.role, m.content))
    let report := genReport message_list
    .ok (⟨updateFirstConv db.conversations cid
            (fun c => { c with ended_at := some now, report := some report }),
          db.messages⟩,
         report)

/-- One iteration of the `while True` receive loop of
`main.websocket_endpoint` (main.py lines 373-413), entered whenever the
conversation row exists: persist the inbound user message, run the
orchestrator (its reply is `assistant_response`), persist the assistant
message, and emit the outbound `\x7brole, content\x7d` payload.  Nothing in
the loop consults `ended_at`. -/
def websocketStep (db : DB) (cid : Nat) (content : String) (is_voice : Bool)
    (assistant_response : String) : DB × (String × String) :=
  let db1 : DB := { db with messages := db.messages ++ [⟨cid, "user", content, is_voice⟩] }
  let db2 : DB := { db1 with messages := db1.messages ++ [⟨cid, "assistant", assistant_response, false⟩] }
  (db2, ("assistant", assistant_response))

/-! ## Concrete scenarios used by the theorems -/

/-- A reverse-geocoding response resolving to Springfield, Illinois. -/
def geoSpringfield : GeoResp :=
  .httpResp 200 ⟨some "Springfield", none, none, some "Illinois", none⟩

/-- An instant-answer document with a usable abstract and no topics. -/
def dataShelter : DDGData :=
  ⟨some "Shelter info", some "Shelters", some "https://example.org/shelters", []⟩

/-- A model that always answers with a `search_web` function call. -/
def envSearchCall : ChatEnv :=
  ⟨fun _ => .responds ⟨[[.functionCall ⟨"search_web", [("query", "homeless shelters")]⟩]]⟩⟩

/-- A one-message history asking for shelter. -/
def shelterHistory : List Msg := [⟨"user", "I need a shelter tonight"⟩]

/-- A `request_user_location` call carrying its required `reason` argument. -/
def locFCWithReason : FunctionCall :=
  ⟨"request_user_location", [("reason", "to find nearby shelters")]⟩

/-- A `request_user_location` call missing its required `reason` argument. -/
def locFCNoReason : FunctionCall := ⟨"request_user_location", []⟩

/-- A model that always answers with `locFCWithReason`. -/
def envLocReason : ChatEnv := ⟨fun _ => .responds ⟨[[.functionCall locFCWithReason]]⟩⟩

/-- A model that always answers with `locFCNoReason`. -/
def envLocNoReason : ChatEnv := ⟨fun _ => .responds ⟨[[.functionCall locFCNoReason]]⟩⟩

/-- A one-message history asking for the user's location. -/
def whereAmI : List Msg := [⟨"user", "where am I?"⟩]

/-- A model session whose first call raises with message `boom`. -/
def envRaiseBoom : ChatEnv := ⟨fun _ => .raises "boom"⟩

/-- A model session whose first call raises with message `crash`. -/
def envRaiseCrash : ChatEnv := ⟨fun _ => .raises "crash"⟩

/-- A model that always answers with plain text. -/
def envAllText : ChatEnv := ⟨fun _ => .responds ⟨[[.text "Here is help."]]⟩⟩

/-- A three-message history: user, assistant, user. -/
def threeMsgs : List Msg :=
  [⟨"user", "hi"⟩, ⟨"assistant", "hello"⟩, ⟨"user", "I need food"⟩]

/-- A database holding one conversation that has already been ended. -/
def endedDB : DB := ⟨[⟨1, 7, some 100, some "first report"⟩], []⟩

/-! ## Helper lemmas -/

/-- When every model call responds, the replay loop re-sends exactly the
user-role messages, in order and with no generation config, and advances
the call index by their number. -/
theorem runReplay_responds (env : ChatEnv)
    (h : ∀ j, ∃ r, env.send j = .responds r) :
    ∀ (ms : List Msg) (k : Nat),
      runReplay env ms k =
        .ok (k + (ms.filter fun m => m.role == "user").length)
          ((ms.filter fun m => m.role == "user").map
            fun m => (⟨m.content, none⟩ : ModelCall)) := by
  intro ms
  induction ms with
  | nil => intro k; simp [runReplay]
  | cons m ms ih =>
    intro k
    by_cases hm : m.role == "user"
    · obtain ⟨r, hr⟩ := h k
      simp [runReplay, hm, hr, ih (k + 1)]
      omega
    · simp [runReplay, hm, ih k]

/-! ## Theorems for the claims -/

/-- C10: called with an empty message list, `get_chatbot_response` makes no
model call and returns the fixed greeting. -/
theorem C10_empty_history (env : ChatEnv) :
    get_chatbot_response env [] = ⟨emptyHistoryReply, [], []⟩ := rfl

/-- C5 (counterexample): a geocoder failure alone does not produce the
fixed fallback result — with the backend healthy the search proceeds on the
coordinate-suffixed query and returns the backend's results, so the claim
that geocoder timeouts yield the single fixed fallback is false. -/
theorem C5_counterexample :
    perform_web_search (.netFail "geocode timeout") (.ok dataShelter)
        "shelters" 5 (some "39.8") (some "-89.6") =
      [⟨"Shelters", "Shelter info", "https://example.org/shelters"⟩] ∧
    ([⟨"Shelters", "Shelter info", "https://example.org/shelters"⟩] :
        List SearchResult) ≠ [fallbackResult] := ⟨rfl, by decide⟩

/-- C5 (amended): on any network or parse failure of the search backend,
`perform_web_search` returns exactly the one fixed fallback result, for
every query, bound, location, and geocoder behaviour; being a total
function, it propagates no exception. -/
theorem C5_amended_fallback (geo : GeoResp) (msg query : String)
    (k : Nat) (lat lon : Option String) :
    perform_web_search geo (.netFail msg) query k lat lon = [fallbackResult] := rfl

/-- C2 (counterexample): with `max_results = 0` and a backend abstract
available, `perform_web_search` returns the empty sequence, refuting the
claimed lower bound of 1 for every `k ≥ 0`. -/
theorem C2_counterexample :
    (perform_web_search (.netFail "geo") (.ok dataShelter)
        "food banks" 0 none none).length = 0 := rfl

/-- C2 (amended): for `max_results = k ≥ 1` the result sequence has length
between 1 and `k`, whatever the backend and geocoder do. -/
theorem C2_amended_bounds (geo : GeoResp) (env : SearchEnv) (query : String)
    (k : Nat) (lat lon : Option String) (hk : 1 ≤ k) :
    1 ≤ (perform_web_search geo env query k lat lon).length ∧
    (perform_web_search geo env query k lat lon).length ≤ k := by
  cases env with
  | netFail m => exact ⟨le_refl 1, hk⟩
  | ok data =>
    dsimp only [perform_web_search]
    set results :=
      (if truthy data.abstract then
        [⟨data.heading.getD "Result", data.abstract.getD "", data.abstractURL.getD ""⟩]
      else []) ++ topicResults (data.relatedTopics.take k) with hres
    by_cases hemp : results.isEmpty
    · simp [hemp, hk]
    · simp only [hemp, if_false, Bool.false_eq_true, List.length_take]
      have hpos : 0 < results.length := by
        cases hr : results with
        | nil => rw [hr] at hemp; simp at hemp
        | cons a l => simp [hr]
      constructor
      · exact le_min hk hpos
      · exact min_le_left _ _

/-- C2 witness: the bounds instantiated at `k = 1` with a failing backend. -/
theorem C2_amended_bounds_witness :
    1 ≤ (perform_web_search (.netFail "g") (.ok ⟨none, none, none, []⟩)
          "q" 1 none none).length ∧
    (perform_web_search (.netFail "g") (.ok ⟨none, none, none, []⟩)
          "q" 1 none none).length ≤ 1 :=
  C2_amended_bounds _ _ _ _ _ _ (le_refl 1)

/-- C6 (counterexample): when geocoding is totally unavailable (the network
call fails) and a location is present, the issued query is NOT the
unmodified query — the raw coordinates are appended. -/
theorem C6_counterexample :
    enhanced_query (.netFail "geocoding unavailable") "food banks"
        (some "39.8") (some "-89.6") = "food banks near 39.8,-89.6" ∧
    ("food banks near 39.8,-89.6" : String) ≠ "food banks" := ⟨rfl, by decide⟩

/-- C6 (amended): with a location present, a truthy geocoded place name is
appended as `" near <place>"`; when geocoding yields nothing (failure or
total unavailability alike) the raw coordinates are appended; without both
coordinates the query is issued unmodified. -/
theorem C6_amended_enhancement (geo : GeoResp) (query lat lon : String) :
    (∀ name, get_location_name geo = some name → name ≠ "" →
      enhanced_query geo query (some lat) (some lon) = query ++ " near " ++ name) ∧
    (get_location_name geo = none →
      enhanced_query geo query (some lat) (some lon) =
        query ++ " near " ++ lat ++ "," ++ lon) ∧
    (∀ la lo : Option String, la = none ∨ lo = none →
      enhanced_query geo query la lo = query) := by
  refine ⟨?_, ?_, ?_⟩
  · intro name h hne
    simp [enhanced_query, h, hne]
  · intro h
    simp [enhanced_query, h]
  · intro la lo h
    cases la with
    | none => rfl
    | some a =>
      cases lo with
      | none => rfl
      | some b => rcases h with h | h <;> simp at h

/-- C6 witness: the three cases at concrete inputs. -/
theorem C6_amended_witness :
    enhanced_query geoSpringfield "food banks" (some "39.8") (some "-89.6") =
      "food banks near Springfield, Illinois" ∧
    enhanced_query (.netFail "down") "food banks" (some "39.8") (some "-89.6") =
      "food banks near 39.8,-89.6" ∧
    enhanced_query geoSpringfield "food banks" none (some "-89.6") = "food banks" := by
  refine ⟨?_, ?_, ?_⟩
  · exact ((C6_amended_enhancement geoSpringfield "food banks" "39.8" "-89.6").1
      "Springfield, Illinois" rfl (by decide)).trans (by decide)
  · exact ((C6_amended_enhancement (.netFail "down") "food banks" "39.8" "-89.6").2.1
      rfl).trans (by decide)
  · exact (C6_amended_enhancement geoSpringfield "food banks" "39.8" "-89.6").2.2
      none (some "-89.6") (Or.inl rfl)

/-- C1: on a turn whose model reply invokes `search_web`, the orchestrator
makes exactly one model call and zero Search Provider calls — `search_web`
is not among the tools chatbot.py registers and no branch of
`get_chatbot_response` executes a search. -/
theorem C1_search_web_not_wired :
    (get_chatbot_response envSearchCall shelterHistory).modelCalls =
      [⟨"I need a shelter tonight", some genCfg⟩] ∧
    (get_chatbot_response envSearchCall shelterHistory).searchCalls = [] ∧
    "search_web" ∉ chatbotTools := ⟨rfl, rfl, by decide⟩

/-- C3: the realtime loop appends both the user and the assistant message
to a conversation whose `ended_at` is already set, and `end_conversation`
accepts a second call on it, overwriting `ended_at` and the report. -/
theorem C3_append_after_end_accepted :
    ((websocketStep endedDB 1 "I need help" false "a reply").1).messages =
      [⟨1, "user", "I need help", false⟩, ⟨1, "assistant", "a reply", false⟩] ∧
    end_conversation endedDB 1 200 (fun _ => "second report") =
      .ok (⟨[⟨1, 7, some 200, some "second report"⟩], []⟩, "second report") :=
  ⟨rfl, rfl⟩

/-- C8 (counterexample): two failing turns whose exceptions carry different
messages produce different replies, so the fallback is not a single fixed
string. -/
theorem C8_counterexample :
    (∃ c, tryBody envRaiseBoom whereAmI = .exc "boom" c) ∧
    (∃ c, tryBody envRaiseCrash whereAmI = .exc "crash" c) ∧
    (get_chatbot_response envRaiseBoom whereAmI).reply ≠
      (get_chatbot_response envRaiseCrash whereAmI).reply :=
  ⟨⟨_, rfl⟩, ⟨_, rfl⟩, by decide⟩

/-- C8 (amended): any exception raised inside the turn's `try` block is
caught and converted into the apologetic reply formed from the fixed prefix
followed by the exception's message, so the turn always completes with a
reply. -/
theorem C8_amended_apology (env : ChatEnv) (messages : List Msg)
    (e : String) (calls : List ModelCall)
    (h : tryBody env messages = .exc e calls) :
    get_chatbot_response env messages = ⟨apologyPrefix ++ e, calls, []⟩ := by
  simp [get_chatbot_response, h]

/-- C8 witness: a first-call failure with message `boom`. -/
theorem C8_amended_witness :
    get_chatbot_response envRaiseBoom whereAmI =
      ⟨apologyPrefix ++ "boom", [⟨"where am I?", some genCfg⟩], []⟩ :=
  C8_amended_apology envRaiseBoom whereAmI "boom" [⟨"where am I?", some genCfg⟩] rfl

/-- The model calls recorded in a `try`-block outcome. -/
def TryOut.callsOf : TryOut → List ModelCall
  | .ok _ c => c
  | .exc _ c => c

/-- The turn's model-call trace is the `try` block's, on both the return
and the exception path. -/
theorem modelCalls_eq_callsOf (env : ChatEnv) (ms : List Msg) :
    (get_chatbot_response env ms).modelCalls = (tryBody env ms).callsOf := by
  cases h : tryBody env ms <;> simp [get_chatbot_response, h, TryOut.callsOf]

/-- C7: a turn whose final model response carries a `request_user_location`
function call makes no Search Provider call, and its reply is the
serialization of an object of shape
`\x7btype: request_location, reason, message\x7d`. -/
theorem C7_location_request (env : ChatEnv) (messages : List Msg)
    (resp : ModelResponse) (fc : FunctionCall)
    (hne : messages ≠ [])
    (hreplay : ∀ j, ∃ r, env.send j = .responds r)
    (hfin : env.send ((messages.dropLast.filter fun m => m.role == "user").length) =
      .responds resp)
    (hfc : findLocFC (partsOf resp) = some fc) :
    (get_chatbot_response env messages).searchCalls = [] ∧
    ∃ reason message, (get_chatbot_response env messages).reply =
      dumpsObj [("type", "request_location"), ("reason", reason), ("message", message)] := by
  have hrun : get_chatbot_response env messages =
      ⟨locationRequestReply (lookupD fc.args "reason" "to assist you better"),
       ((messages.dropLast.filter fun m => m.role == "user").map
         fun m => (⟨m.content, none⟩ : ModelCall)) ++
         [⟨(messages.getLast hne).content, some genCfg⟩], []⟩ := by
    simp [get_chatbot_response, tryBody, runReplay_responds env hreplay,
      List.getLast?_eq_getLast_of_ne_nil hne, hfin, hfc]
  rw [hrun]
  exact ⟨rfl, _, _, rfl⟩

/-- C7 witness: one user message answered by a `request_user_location`
call that carries a reason. -/
theorem C7_witness :
    (get_chatbot_response envLocReason whereAmI).searchCalls = [] ∧
    ∃ reason message, (get_chatbot_response envLocReason whereAmI).reply =
      dumpsObj [("type", "request_location"), ("reason", reason), ("message", message)] :=
  C7_location_request envLocReason whereAmI ⟨[[.functionCall locFCWithReason]]⟩
    locFCWithReason (by decide) (fun j => ⟨_, rfl⟩) rfl rfl

set_option maxRecDepth 8192 in
/-- C4 (counterexample): a `request_user_location` invocation missing its
required `reason` argument is not rejected — the capability is executed
with the default reason and the reply is the location-request payload, not
a "cannot help with that request" reply. -/
theorem C4_counterexample :
    "reason" ∈ get_location_func_required ∧
    locFCNoReason.args.find? (fun kv => kv.1 == "reason") = none ∧
    (get_chatbot_response envLocNoReason whereAmI).reply =
      locationRequestReply "to assist you better" ∧
    containsSub (get_chatbot_response envLocNoReason whereAmI).reply "cannot help" = false :=
  ⟨by decide, rfl, rfl, by decide⟩

/-- C4 (amended): the orchestrator performs no schema validation — when the
model's `request_user_location` call omits the required `reason` argument,
the capability is executed anyway with the default reason
"to assist you better". -/
theorem C4_amended_no_validation (env : ChatEnv) (messages : List Msg)
    (resp : ModelResponse) (fc : FunctionCall)
    (hne : messages ≠ [])
    (hreplay : ∀ j, ∃ r, env.send j = .responds r)
    (hfin : env.send ((messages.dropLast.filter fun m => m.role == "user").length) =
      .responds resp)
    (hfc : findLocFC (partsOf resp) = some fc)
    (hmissing : fc.args.find? (fun kv => kv.1 == "reason") = none) :
    (get_chatbot_response env messages).reply =
      locationRequestReply "to assist you better" := by
  have hrun : get_chatbot_response env messages =
      ⟨locationRequestReply (lookupD fc.args "reason" "to assist you better"),
       ((messages.dropLast.filter fun m => m.role == "user").map
         fun m => (⟨m.content, none⟩ : ModelCall)) ++
         [⟨(messages.getLast hne).content, some genCfg⟩], []⟩ := by
    simp [get_chatbot_response, tryBody, runReplay_responds env hreplay,
      List.getLast?_eq_getLast_of_ne_nil hne, hfin, hfc]
  rw [hrun]
  simp [lookupD, hmissing]

/-- C4 witness: the amended behaviour at the concrete argument-free call. -/
theorem C4_amended_witness :
    (get_chatbot_response envLocNoReason whereAmI).reply =
      locationRequestReply "to assist you better" :=
  C4_amended_no_validation envLocNoReason whereAmI ⟨[[.functionCall locFCNoReason]]⟩
    locFCNoReason (by decide) (fun j => ⟨_, rfl⟩) rfl rfl rfl

/-- C9: with every model call succeeding, the turn's model-call trace is
exactly the prior user messages in order (no config, assistant messages
never re-sent) followed by the last message sent with temperature 0.7 and a
500-token output bound. -/
theorem C9_replay_and_decoding (env : ChatEnv) (messages : List Msg)
    (hne : messages ≠ [])
    (hreplay : ∀ j, ∃ r, env.send j = .responds r) :
    (get_chatbot_response env messages).modelCalls =
      ((messages.dropLast.filter fun m => m.role == "user").map
        fun m => (⟨m.content, none⟩ : ModelCall)) ++
      [⟨(messages.getLast hne).content, some ⟨7/10, 500⟩⟩] := by
  obtain ⟨resp, hfin⟩ :=
    hreplay ((messages.dropLast.filter fun m => m.role == "user").length)
  rw [modelCalls_eq_callsOf]
  simp only [tryBody, runReplay_responds env hreplay, Nat.zero_add,
    List.getLast?_eq_getLast_of_ne_nil hne, hfin]
  split
  · simp [TryOut.callsOf, genCfg]
  · split <;> simp [TryOut.callsOf, genCfg]

/-- C9 witness: a user-assistant-user history with an all-text model. -/
theorem C9_witness :
    (get_chatbot_response envAllText threeMsgs).modelCalls =
      [⟨"hi", none⟩, ⟨"I need food", some ⟨7/10, 500⟩⟩] := by
  have h := C9_replay_and_decoding envAllText threeMsgs (by decide)
    (fun j => ⟨⟨[[.text "Here is help."]]⟩, rfl⟩)
  rw [h]; rfl

end HA
